import Mathlib

/-!
Shallow embedding of `src/unfurl.js` from tldraw/cloudflare-workers-unfurl.

The source is a Cloudflare Worker that extracts metadata (title, description,
image, favicon) from an HTML document.  Its pure logic — input validation,
the three HTMLRewriter handler classes (`MetaExtractor`, `TextExtractor`,
`IconExtractor`), the resolution step, and the request handler's status
mapping — is embedded below.  External collaborators (the `fetch` call, the
HTMLRewriter tokenizer, the WHATWG `URL` constructor) are modelled at their
interface: the tokenizer as a list of tag events, the fetch as an outcome
value, the URL constructor as a resolver function parameter.
-/

set_option autoImplicit false

/-- Attribute list of an element-start event: ordered (name, value) pairs,
as delivered by HTMLRewriter. -/
abbrev Attrs := List (String × String)

/-- Models HTMLRewriter's `element.getAttribute(name)`: the value of the
first attribute with that name, or `null` (here `none`) when absent. -/
def getAttribute (attrs : Attrs) (name : String) : Option String :=
  List.lookup name attrs

/-- Models JavaScript `s.startsWith(p)`: the first `p.length` characters of
`s` equal `p`. -/
def jsStartsWith (s p : String) : Bool :=
  s.data.take p.data.length == p.data

/-- Models the JavaScript nullish-coalescing operator `a ?? b` on values of
type string-or-null-or-undefined (both nullish cases collapsed to `none`,
which the resolution code cannot distinguish). -/
def jsNullish (a b : Option String) : Option String :=
  match a with
  | some v => some v
  | none => b

/-- State of the `MetaExtractor` handler class (src/unfurl.js:149-184).
The JavaScript objects `og` and `twitter` are last-write-wins string maps
whose values are `getAttribute("content")` results (string or null); they
are modelled as association lists with the most recent write first, read
through `List.lookup` (first match = latest write). -/
structure MetaState where
  og : List (String × Option String)
  twitter : List (String × Option String)
  description : Option String
deriving DecidableEq, Repr

/-- Initial `MetaExtractor` state: empty maps, `description = null`. -/
def MetaState.init : MetaState := ⟨[], [], none⟩

/-- Embeds `MetaExtractor.element` (src/unfurl.js:172-183).  The JavaScript
guard `property && property.startsWith("og:")` checks truthiness of the
string first, but the empty string also fails `startsWith("og:")`, so
truthiness adds nothing; likewise for `name`. -/
def metaElement (st : MetaState) (attrs : Attrs) : MetaState :=
  let property := getAttribute attrs "property"
  let name := getAttribute attrs "name"
  if property.any (fun p => jsStartsWith p "og:") then
    { st with og := (property.getD "", getAttribute attrs "content") :: st.og }
  else if name.any (fun n => jsStartsWith n "twitter:") then
    { st with twitter := (name.getD "", getAttribute attrs "content") :: st.twitter }
  else if name == some "description" then
    { st with description := getAttribute attrs "content" }
  else st

/-- State of the `IconExtractor` handler class (src/unfurl.js:189-213):
two string-or-null fields, both initially null. -/
structure IconState where
  appleIcon : Option String
  icon : Option String
deriving DecidableEq, Repr

/-- Initial `IconExtractor` state. -/
def IconState.init : IconState := ⟨none, none⟩

/-- Embeds `IconExtractor.element` (src/unfurl.js:206-212): exact string
match on the `rel` attribute. -/
def iconElement (st : IconState) (attrs : Attrs) : IconState :=
  if getAttribute attrs "rel" == some "icon" then
    { st with icon := getAttribute attrs "href" }
  else if getAttribute attrs "rel" == some "apple-touch-icon" then
    { st with appleIcon := getAttribute attrs "href" }
  else st

/-- A tag event delivered by the HTMLRewriter tokenizer (external
collaborator): an element-start with its attributes, or a text chunk with
the tag of its enclosing element. -/
inductive TagEvent where
  | elementStart (tag : String) (attrs : Attrs)
  | text (enclosingTag : String) (content : String)
deriving DecidableEq, Repr

/-- Combined accumulator state for one extraction run: the three handler
objects `meta$`, `title$` (its `string` field), `icon$`
(src/unfurl.js:49-51).  `TextExtractor.string` starts as `""` and is
append-only (src/unfurl.js:129-144). -/
structure ExtractState where
  meta : MetaState
  titleString : String
  icon : IconState
deriving DecidableEq, Repr

/-- The freshly constructed handler states of src/unfurl.js:49-51. -/
def ExtractState.init : ExtractState := ⟨MetaState.init, "", IconState.init⟩

/-- Dispatch of one tag event, mirroring
`.on("meta", meta$).on("title", title$).on("link", icon$)`
(src/unfurl.js:54-57): `meta$` and `icon$` define only `element` handlers,
`title$` only a `text` handler, so element events reach the meta/icon
extractors and text inside `title` reaches the text extractor. -/
def handleEvent (st : ExtractState) : TagEvent → ExtractState
  | .elementStart tag attrs =>
    if tag == "meta" then { st with meta := metaElement st.meta attrs }
    else if tag == "link" then { st with icon := iconElement st.icon attrs }
    else st
  | .text tag content =>
    if tag == "title" then { st with titleString := st.titleString ++ content }
    else st

/-- One streaming pass: the tokenizer delivers the document's events in
order to the handlers. -/
def runEvents (evs : List TagEvent) : ExtractState :=
  evs.foldl handleEvent ExtractState.init

/-- Reads a JavaScript map entry the way the resolution step does:
`og[k]` is `undefined` (no key), `null` (stored null content) or a string;
the `??` chains treat the first two identically, so both collapse to
`none`. -/
def lookupContent (m : List (String × Option String)) (k : String) : Option String :=
  (List.lookup k m).join

/-- The final `UnfurledData` record (src/unfurl.js:20-26): four optional
strings. -/
structure UnfurledData where
  title : Option String
  description : Option String
  image : Option String
  favicon : Option String
deriving DecidableEq, Repr

/-- Title resolution (src/unfurl.js:66-67):
`og["og:title"] ?? twitter["twitter:title"] ?? title$.string ?? undefined`.
Note `title$.string` is a string, never nullish. -/
def resolveTitle (st : ExtractState) : Option String :=
  jsNullish (lookupContent st.meta.og "og:title")
    (jsNullish (lookupContent st.meta.twitter "twitter:title")
      (jsNullish (some st.titleString) none))

/-- Description resolution (src/unfurl.js:68-72). -/
def resolveDescription (st : ExtractState) : Option String :=
  jsNullish (lookupContent st.meta.og "og:description")
    (jsNullish (lookupContent st.meta.twitter "twitter:description")
      (jsNullish st.meta.description none))

/-- Image candidate selection (src/unfurl.js:73-77). -/
def imageCandidate (m : MetaState) : Option String :=
  jsNullish (lookupContent m.og "og:image:secure_url")
    (jsNullish (lookupContent m.og "og:image")
      (jsNullish (lookupContent m.twitter "twitter:image") none))

/-- Favicon candidate selection (src/unfurl.js:78):
`icon$.appleIcon ?? icon$.icon ?? undefined`. -/
def faviconCandidate (ic : IconState) : Option String :=
  jsNullish ic.appleIcon (jsNullish ic.icon none)

/-- URL normalization applied to a selected candidate
(src/unfurl.js:80-85): `if (c && !c?.startsWith("http")) c = new URL(c, url).href`.
The JavaScript truthiness test makes the empty string skip resolution.
`resolveURL rel base` stands for `new URL(rel, base).href`, an external
platform collaborator passed in as a parameter. -/
def normalizeCandidate (resolveURL : String → String → String) (url : String) :
    Option String → Option String
  | none => none
  | some c =>
    if c != "" && !(jsStartsWith c "http") then some (resolveURL c url)
    else some c

/-- The resolution step (src/unfurl.js:64-95): best-effort field selection
from the three accumulators, with URL normalization on image and favicon
only. -/
def resolve (resolveURL : String → String → String) (url : String)
    (st : ExtractState) : UnfurledData :=
  { title := resolveTitle st
    description := resolveDescription st
    image := normalizeCandidate resolveURL url (imageCandidate st.meta)
    favicon := normalizeCandidate resolveURL url (faviconCandidate st.icon) }

/-- The closed error enumeration of src/unfurl.js:29. -/
inductive UnfurlError where
  | badParam
  | failedFetch
deriving DecidableEq, Repr

/-- The `Result` envelope of src/unfurl.js:2-18: success carrying a value
or failure carrying an error, never both. -/
inductive Result (V E : Type) where
  | ok (value : V)
  | err (error : E)
deriving DecidableEq, Repr

/-- Outcome of the external fetch-and-stream phase (src/unfurl.js:53-62),
as observed through the `try`/`catch`: the fetch throws before any event
is delivered; or the stream errors after delivering some events (the
handlers ran on the prefix but `.blob()` rejects); or the stream completes
having delivered the document's events. -/
inductive FetchOutcome where
  | throws
  | streamError (delivered : List TagEvent)
  | success (events : List TagEvent)
deriving DecidableEq, Repr

/-- The body of `unfurl` after validation (src/unfurl.js:46-95): any
throw from the fetch/stream phase is caught and mapped to `failed-fetch`,
discarding the accumulators; a completed stream always reaches the
resolution step. -/
def unfurlBody (resolveURL : String → String → String) (url : String) :
    FetchOutcome → Result UnfurledData UnfurlError
  | .throws => .err .failedFetch
  | .streamError _ => .err .failedFetch
  | .success evs => .ok (resolve resolveURL url (runEvents evs))

/-- The argument to `unfurl`: a JavaScript value that is either a string
or not a string (`typeof url !== "string"`). -/
inductive UrlInput where
  | str (s : String)
  | nonString
deriving DecidableEq, Repr

/-- Embeds `unfurl` (src/unfurl.js:37-96).  The validation is the source's
literal condition
`typeof url !== "string" || !url.startsWith("http://") || !url.startsWith("https://")`.
The returned `Bool` instruments whether control reached the `fetch` call
(`false` means the validation early-return fired and no network I/O was
attempted). -/
def unfurl (resolveURL : String → String → String) (input : UrlInput)
    (outcome : FetchOutcome) : Result UnfurledData UnfurlError × Bool :=
  match input with
  | .nonString => (.err .badParam, false)
  | .str url =>
    if !(jsStartsWith url "http://") || !(jsStartsWith url "https://") then
      (.err .badParam, false)
    else
      (unfurlBody resolveURL url outcome, true)

/-- Body of an HTTP response produced by the handler: plain text, or the
JSON serialization of an `UnfurledData` (`JSON.stringify` is a platform
builtin; the model records exactly which data is serialized). -/
inductive ResponseBody where
  | text (s : String)
  | json (d : UnfurledData)
deriving DecidableEq, Repr

/-- An HTTP response: status code and body.  `new Response(body)` with no
status option defaults to 200. -/
structure HttpResponse where
  status : Nat
  body : ResponseBody
deriving DecidableEq, Repr

/-- The result-to-response mapping of `handleUnfurlRequest`
(src/unfurl.js:115-123). -/
def handleResult : Result UnfurledData UnfurlError → HttpResponse
  | .ok v => ⟨200, .json v⟩
  | .err .badParam => ⟨400, .text "Bad URL query parameter."⟩
  | .err .failedFetch => ⟨422, .text "Failed to fetch URL."⟩

/-- Embeds `handleUnfurlRequest` (src/unfurl.js:106-124).  `urlParam` is
`searchParams.get("url")`: `null` when the query parameter is absent,
otherwise its string value; the guard `if (!url)` is JavaScript falsiness,
so the empty string also takes the early 400.  The returned `Bool`
instruments whether `unfurl` was invoked. -/
def handleUnfurlRequest (resolveURL : String → String → String)
    (urlParam : Option String) (outcome : FetchOutcome) : HttpResponse × Bool :=
  match urlParam with
  | none => (⟨400, .text "Missing URL query parameter."⟩, false)
  | some u =>
    if u == "" then (⟨400, .text "Missing URL query parameter."⟩, false)
    else (handleResult (unfurl resolveURL (.str u) outcome).1, true)

/-- Modelled from the spec: the WHATWG URL constructor `new URL(rel, base)`
used by the resolution step is an external platform API, absent from src/.
Only the behaviour the spec states is modelled: a path-absolute reference
(starting with `/`) against an absolute base URL replaces the base's path,
yielding scheme://host ++ rel; other references are modelled as returned
unchanged.  Used only to instantiate the resolver parameter on concrete
examples. -/
def takeUntilSlash : List Char → List Char
  | [] => []
  | c :: cs => if c = '/' then [] else c :: takeUntilSlash cs

/-- Splits a character list at the first `://`, returning the part before
it and the part after it. -/
def splitAtSchemeSep : List Char → Option (List Char × List Char)
  | [] => none
  | ':' :: '/' :: '/' :: rest => some ([], rest)
  | c :: cs => (splitAtSchemeSep cs).map (fun p => (c :: p.1, p.2))

/-- The scheme://host part of an absolute URL (see `takeUntilSlash`). -/
def originOf (base : String) : String :=
  match splitAtSchemeSep base.data with
  | none => base
  | some (scheme, rest) =>
    ⟨scheme ++ ':' :: '/' :: '/' :: takeUntilSlash rest⟩

/-- Modelled from the spec: `new URL(rel, base).href` for the path-absolute
case (see the doc comment on `takeUntilSlash`). -/
def resolveRelativeURL (rel base : String) : String :=
  if jsStartsWith rel "/" then originOf base ++ rel else rel

/-! ### Helper lemmas -/

/-- No string starts with both `"http://"` and `"https://"`: the two
prefixes disagree at index 4. -/
theorem http_and_https_impossible (s : String) :
    ¬(jsStartsWith s "http://" = true ∧ jsStartsWith s "https://" = true) := by
  rintro ⟨h1, h2⟩
  have e1 : s.data.take 7 = "http://".data := eq_of_beq h1
  have e2 : s.data.take 8 = "https://".data := eq_of_beq h2
  have e3 : ("https://".data).take 7 = "http://".data := by
    rw [← e2, List.take_take]
    exact e1
  exact absurd e3 (by decide)

/-- The source's validation disjunction is true for every string. -/
theorem validation_always_true (s : String) :
    (!(jsStartsWith s "http://") || !(jsStartsWith s "https://")) = true := by
  cases h1 : jsStartsWith s "http://" with
  | false => simp [h1]
  | true =>
    cases h2 : jsStartsWith s "https://" with
    | false => simp [h2]
    | true => exact absurd ⟨h1, h2⟩ (http_and_https_impossible s)

/-- `unfurl` returns the bad-param failure without fetching, on every
input and every fetch outcome. -/
theorem unfurl_eq_badParam (r : String → String → String) (input : UrlInput)
    (o : FetchOutcome) : unfurl r input o = (.err .badParam, false) := by
  cases input with
  | nonString => rfl
  | str url => simp [unfurl, validation_always_true url]

/-- Decidable condition: every text event scoped to a `title` element in
the document carries empty content (covering both "the title text callback
is never invoked" and "invoked only with empty text"). -/
def onlyEmptyTitleText (evs : List TagEvent) : Bool :=
  evs.all (fun ev =>
    match ev with
    | .text t c => if t == "title" then c == "" else true
    | .elementStart _ _ => true)

/-- A single event leaves the accumulated title string unchanged unless it
is a `title` text event, in which case the content is appended. -/
theorem titleString_handleEvent (st : ExtractState) (ev : TagEvent) :
    (handleEvent st ev).titleString =
      (match ev with
       | .text t c => if t == "title" then st.titleString ++ c else st.titleString
       | .elementStart _ _ => st.titleString) := by
  cases ev with
  | elementStart tag attrs =>
    simp only [handleEvent]
    split <;> try rfl
    split <;> rfl
  | text t c =>
    simp only [handleEvent]
    split <;> simp_all

/-- If every `title` text event is empty, the accumulated title string is
whatever it started as. -/
theorem titleString_of_onlyEmpty (evs : List TagEvent) :
    ∀ st : ExtractState, onlyEmptyTitleText evs = true →
      (evs.foldl handleEvent st).titleString = st.titleString := by
  induction evs with
  | nil => intro st _; rfl
  | cons ev evs ih =>
    intro st h
    simp only [onlyEmptyTitleText, List.all_cons, Bool.and_eq_true] at h
    have hstep : (handleEvent st ev).titleString = st.titleString := by
      rw [titleString_handleEvent]
      cases ev with
      | elementStart tag attrs => rfl
      | text t c =>
        rcases h with ⟨h1, _⟩
        by_cases ht : (t == "title") = true
        · have hc : c = "" := by
            have h1' : (if (t == "title") = true then c == "" else true) = true := h1
            rw [if_pos ht] at h1'
            exact eq_of_beq h1'
          subst hc
          simp [ht, String.append_empty]
        · simp [ht]
    calc ((ev :: evs).foldl handleEvent st).titleString
        = (evs.foldl handleEvent (handleEvent st ev)).titleString := rfl
      _ = (handleEvent st ev).titleString := ih _ h.2
      _ = st.titleString := hstep

/-! ### Claim theorems -/

/-- C1: for every input — including every string starting with `http://`
or `https://` — and every possible fetch outcome, `unfurl` returns the
`bad-param` failure and never reaches the fetch (instrumentation bit
`false`); in particular it never returns a success result. -/
theorem unfurl_always_bad_param (r : String → String → String)
    (input : UrlInput) (o : FetchOutcome) :
    unfurl r input o = (.err .badParam, false) :=
  unfurl_eq_badParam r input o

/-- C2 (counterexample): in the document whose only event is a `title` text
chunk with empty content — the title text callback fires only with empty
text, and no og:title or twitter:title candidate exists — the resolved
title field is the empty string, not absent, refuting the claim as
stated. -/
theorem empty_title_buffer_gives_empty_string_title :
    (resolve resolveRelativeURL "https://example.com/"
        (runEvents [TagEvent.text "title" ""])).title = some "" ∧
      (resolve resolveRelativeURL "https://example.com/"
        (runEvents [TagEvent.text "title" ""])).title ≠ none := by
  decide

/-- C2 (amended): when the title text callback is never invoked or fires
only with empty text, and no og:title or twitter:title candidate is
present, the resolved title field is the empty string (the accumulator's
buffer, which `??` does not treat as absent), not absent. -/
theorem title_empty_buffer_resolves_empty_string
    (r : String → String → String) (url : String) (evs : List TagEvent)
    (htitle : onlyEmptyTitleText evs = true)
    (hog : lookupContent (runEvents evs).meta.og "og:title" = none)
    (htw : lookupContent (runEvents evs).meta.twitter "twitter:title" = none) :
    (resolve r url (runEvents evs)).title = some "" := by
  have hts : (runEvents evs).titleString = "" :=
    titleString_of_onlyEmpty evs ExtractState.init htitle
  simp [resolve, resolveTitle, jsNullish, hog, htw, hts]

/-- Witness for the amended C2 at a concrete document. -/
theorem title_empty_buffer_resolves_empty_string_witness :
    (resolve resolveRelativeURL "https://a.example/"
        (runEvents [TagEvent.elementStart "meta" [("name", "description"), ("content", "d")],
          TagEvent.text "title" ""])).title = some "" :=
  title_empty_buffer_resolves_empty_string resolveRelativeURL "https://a.example/"
    [TagEvent.elementStart "meta" [("name", "description"), ("content", "d")],
      TagEvent.text "title" ""]
    (by decide) (by decide) (by decide)

/-- C3: the empty string, and every non-string input, yield the bad-param
failure with the fetch collaborator never invoked. -/
theorem empty_or_nonstring_bad_param_no_fetch
    (r : String → String → String) (input : UrlInput) (o : FetchOutcome)
    (h : input = .str "" ∨ input = .nonString) :
    unfurl r input o = (.err .badParam, false) := by
  rcases h with h | h <;> subst h
  · simp [unfurl, validation_always_true]
  · rfl

/-- Witness for C3 at the empty string. -/
theorem empty_or_nonstring_bad_param_no_fetch_witness :
    unfurl resolveRelativeURL (.str "") .throws = (.err .badParam, false) :=
  empty_or_nonstring_bad_param_no_fetch resolveRelativeURL (.str "") .throws (Or.inl rfl)

/-- C4: title selection follows strict priority at the resolution step —
the stored og:title value if present, else the stored twitter:title value,
else the title accumulator's result. -/
theorem title_priority (r : String → String → String) (url : String)
    (st : ExtractState) :
    (∀ v, lookupContent st.meta.og "og:title" = some v →
      (resolve r url st).title = some v) ∧
    (lookupContent st.meta.og "og:title" = none →
      ∀ v, lookupContent st.meta.twitter "twitter:title" = some v →
        (resolve r url st).title = some v) ∧
    (lookupContent st.meta.og "og:title" = none →
      lookupContent st.meta.twitter "twitter:title" = none →
        (resolve r url st).title = some st.titleString) := by
  refine ⟨fun v hv => ?_, fun h1 v hv => ?_, fun h1 h2 => ?_⟩ <;>
    simp [resolve, resolveTitle, jsNullish, *]

/-- Witness for C4: a document containing both an og:title meta and a
`<title>` element resolves title to the og:title value, never the tag
text. -/
theorem title_priority_witness :
    (resolve resolveRelativeURL "https://example.com/"
        (runEvents
          [TagEvent.elementStart "meta" [("property", "og:title"), ("content", "OG")],
            TagEvent.text "title" "Tag"])).title = some "OG" :=
  (title_priority resolveRelativeURL "https://example.com/"
      (runEvents
        [TagEvent.elementStart "meta" [("property", "og:title"), ("content", "OG")],
          TagEvent.text "title" "Tag"])).1 "OG" (by decide)

/-- C5: the meta accumulator applies exactly one classification rule per
element, in order — og: property, then twitter: name, then exact
"description" name, else ignored — and a later element storing under the
same key overwrites the earlier one (last-wins in document order). -/
theorem meta_classification (st : MetaState) (attrs : Attrs) :
    (∀ p, getAttribute attrs "property" = some p → jsStartsWith p "og:" = true →
      metaElement st attrs =
        { st with og := (p, getAttribute attrs "content") :: st.og }) ∧
    ((getAttribute attrs "property").any (fun p => jsStartsWith p "og:") = false →
      ∀ n, getAttribute attrs "name" = some n → jsStartsWith n "twitter:" = true →
        metaElement st attrs =
          { st with twitter := (n, getAttribute attrs "content") :: st.twitter }) ∧
    ((getAttribute attrs "property").any (fun p => jsStartsWith p "og:") = false →
      (getAttribute attrs "name").any (fun n => jsStartsWith n "twitter:") = false →
      getAttribute attrs "name" = some "description" →
        metaElement st attrs = { st with description := getAttribute attrs "content" }) ∧
    ((getAttribute attrs "property").any (fun p => jsStartsWith p "og:") = false →
      (getAttribute attrs "name").any (fun n => jsStartsWith n "twitter:") = false →
      getAttribute attrs "name" ≠ some "description" →
        metaElement st attrs = st) ∧
    (∀ e1 e2 : Attrs, ∀ p,
      getAttribute e1 "property" = some p → jsStartsWith p "og:" = true →
      getAttribute e2 "property" = some p →
        List.lookup p (metaElement (metaElement st e1) e2).og =
          some (getAttribute e2 "content")) := by
  refine ⟨fun p hp hs => ?_, fun h1 n hn hs => ?_, fun h1 h2 hn => ?_,
    fun h1 h2 hn => ?_, fun e1 e2 p hp1 hs1 hp2 => ?_⟩
  · simp [metaElement, hp, hs]
  · simp [metaElement, h1, hn, hs]
  · simp only [metaElement]
    rw [if_neg (by simp [h1]), if_neg (by simp [h2]), if_pos (by simp [hn])]
  · simp only [metaElement]
    rw [if_neg (by simp [h1]), if_neg (by simp [h2]), if_neg (by simp [hn])]
  · have m1 : metaElement st e1 =
        { st with og := (p, getAttribute e1 "content") :: st.og } := by
      simp [metaElement, hp1, hs1]
    have m2 : metaElement (metaElement st e1) e2 =
        { metaElement st e1 with
          og := (p, getAttribute e2 "content") :: (metaElement st e1).og } := by
      simp [metaElement, hp2, hs1]
    rw [m2]
    simp [List.lookup]

/-- Witness for C5: two og:title metas with contents "A" then "B" resolve
the stored og:title to "B". -/
theorem meta_classification_witness :
    List.lookup "og:title"
        (metaElement
          (metaElement MetaState.init [("property", "og:title"), ("content", "A")])
          [("property", "og:title"), ("content", "B")]).og = some (some "B") :=
  (meta_classification MetaState.init
      [("property", "og:title"), ("content", "A")]).2.2.2.2
    [("property", "og:title"), ("content", "A")]
    [("property", "og:title"), ("content", "B")]
    "og:title" (by decide) (by decide) (by decide)

/-- C6: the image candidate is og:image:secure_url, else og:image, else
twitter:image, else absent; the favicon candidate is the apple-touch-icon
href, else the standard icon href, else absent. -/
theorem image_favicon_candidate_priority (m : MetaState) (ic : IconState) :
    (∀ v, lookupContent m.og "og:image:secure_url" = some v →
      imageCandidate m = some v) ∧
    (lookupContent m.og "og:image:secure_url" = none →
      ∀ v, lookupContent m.og "og:image" = some v → imageCandidate m = some v) ∧
    (lookupContent m.og "og:image:secure_url" = none →
      lookupContent m.og "og:image" = none →
      ∀ v, lookupContent m.twitter "twitter:image" = some v →
        imageCandidate m = some v) ∧
    (lookupContent m.og "og:image:secure_url" = none →
      lookupContent m.og "og:image" = none →
      lookupContent m.twitter "twitter:image" = none → imageCandidate m = none) ∧
    (∀ v, ic.appleIcon = some v → faviconCandidate ic = some v) ∧
    (ic.appleIcon = none → ∀ v, ic.icon = some v → faviconCandidate ic = some v) ∧
    (ic.appleIcon = none → ic.icon = none → faviconCandidate ic = none) := by
  refine ⟨fun v hv => ?_, fun h1 v hv => ?_, fun h1 h2 v hv => ?_,
    fun h1 h2 h3 => ?_, fun v hv => ?_, fun h1 v hv => ?_, fun h1 h2 => ?_⟩ <;>
    simp [imageCandidate, faviconCandidate, jsNullish, *]

/-- Witness for C6: with no secure_url, og:image wins over twitter:image,
and the apple-touch-icon wins for the favicon. -/
theorem image_favicon_candidate_priority_witness :
    imageCandidate
        (runEvents
          [TagEvent.elementStart "meta" [("property", "og:image"), ("content", "I")],
            TagEvent.elementStart "meta" [("name", "twitter:image"), ("content", "T")]]).meta =
      some "I" :=
  (image_favicon_candidate_priority
      (runEvents
        [TagEvent.elementStart "meta" [("property", "og:image"), ("content", "I")],
          TagEvent.elementStart "meta" [("name", "twitter:image"), ("content", "T")]]).meta
      IconState.init).2.1 (by decide) "I" (by decide)

/-- C7: a present non-empty image or favicon candidate not starting with
"http" is resolved against the request URL; a candidate starting with
"http" is returned unchanged; title and description never depend on the
URL resolver. -/
theorem url_normalization (r r2 : String → String → String) (url : String)
    (st : ExtractState) :
    (∀ c, imageCandidate st.meta = some c → c ≠ "" →
      jsStartsWith c "http" = false → (resolve r url st).image = some (r c url)) ∧
    (∀ c, imageCandidate st.meta = some c → jsStartsWith c "http" = true →
      (resolve r url st).image = some c) ∧
    (∀ c, faviconCandidate st.icon = some c → c ≠ "" →
      jsStartsWith c "http" = false → (resolve r url st).favicon = some (r c url)) ∧
    (∀ c, faviconCandidate st.icon = some c → jsStartsWith c "http" = true →
      (resolve r url st).favicon = some c) ∧
    (resolve r url st).title = (resolve r2 url st).title ∧
    (resolve r url st).description = (resolve r2 url st).description := by
  refine ⟨fun c hc hne hs => ?_, fun c hc hs => ?_, fun c hc hne hs => ?_,
    fun c hc hs => ?_, rfl, rfl⟩ <;>
    simp [resolve, normalizeCandidate, *]

/-- Witness for C7: with request URL `https://example.com/page`, a favicon
href `/favicon.ico` resolves to `https://example.com/favicon.ico`. -/
theorem url_normalization_witness :
    (resolve resolveRelativeURL "https://example.com/page"
        (runEvents
          [TagEvent.elementStart "link" [("rel", "icon"), ("href", "/favicon.ico")]])).favicon =
      some "https://example.com/favicon.ico" :=
  ((url_normalization resolveRelativeURL resolveRelativeURL "https://example.com/page"
      (runEvents
        [TagEvent.elementStart "link" [("rel", "icon"), ("href", "/favicon.ico")]])).2.2.1
    "/favicon.ico" (by decide) (by decide) (by decide)).trans (by decide)

/-- C8: the icon accumulator stores the href as the standard icon only
when `rel` equals exactly "icon", as the Apple icon only when `rel` equals
exactly "apple-touch-icon", and leaves both icons unchanged for every
other `rel` value. -/
theorem icon_rel_exact_match (st : IconState) (attrs : Attrs) :
    (getAttribute attrs "rel" = some "icon" →
      iconElement st attrs = { st with icon := getAttribute attrs "href" }) ∧
    (getAttribute attrs "rel" ≠ some "icon" →
      getAttribute attrs "rel" = some "apple-touch-icon" →
      iconElement st attrs = { st with appleIcon := getAttribute attrs "href" }) ∧
    (getAttribute attrs "rel" ≠ some "icon" →
      getAttribute attrs "rel" ≠ some "apple-touch-icon" →
      iconElement st attrs = st) := by
  refine ⟨fun h => ?_, fun h1 h2 => ?_, fun h1 h2 => ?_⟩
  · simp [iconElement, h]
  · simp only [iconElement]
    rw [if_neg (by simp [h1]), if_pos (by simp [h2])]
  · simp only [iconElement]
    rw [if_neg (by simp [h1]), if_neg (by simp [h2])]

/-- Witness for C8: `rel="shortcut icon"` matches neither rule and leaves
the icon state unchanged. -/
theorem icon_rel_exact_match_witness :
    iconElement IconState.init [("rel", "shortcut icon"), ("href", "/f.ico")] =
      IconState.init :=
  (icon_rel_exact_match IconState.init
      [("rel", "shortcut icon"), ("href", "/f.ico")]).2.2 (by decide) (by decide)

/-- C9: every failure of the fetch/stream phase — a throwing fetch or a
stream that errors after delivering events — yields the single error kind
failed-fetch, and the result is always either a success carrying
UnfurledData or a failure carrying an error kind, never partial data
alongside an error. -/
theorem post_validation_failures_collapse (r : String → String → String)
    (url : String) (o : FetchOutcome) :
    ((o = .throws ∨ ∃ evs, o = .streamError evs) →
      unfurlBody r url o = .err .failedFetch) ∧
    ((∃ d, unfurlBody r url o = .ok d) ∨ unfurlBody r url o = .err .failedFetch) := by
  cases o with
  | throws => exact ⟨fun _ => rfl, Or.inr rfl⟩
  | streamError evs => exact ⟨fun _ => rfl, Or.inr rfl⟩
  | success evs =>
    refine ⟨fun h => ?_, Or.inl ⟨_, rfl⟩⟩
    rcases h with h | ⟨e, h⟩ <;> exact FetchOutcome.noConfusion h

/-- Witness for C9: a throwing fetch yields failed-fetch. -/
theorem post_validation_failures_collapse_witness :
    unfurlBody resolveRelativeURL "https://example.com/" .throws =
      .err .failedFetch :=
  (post_validation_failures_collapse resolveRelativeURL "https://example.com/"
    .throws).1 (Or.inl rfl)

/-- C10: the request handler returns 400 with a plain-text body and no
unfurl call when the url parameter is absent; maps a bad-param result to
400, a failed-fetch result to 422, and a success to a 200 response whose
JSON body serializes exactly the UnfurledData value; a request with a
present (non-empty) parameter is answered by mapping the unfurl result. -/
theorem handler_status_mapping (r : String → String → String)
    (o : FetchOutcome) (p : String) (d : UnfurledData) :
    handleUnfurlRequest r none o =
      (⟨400, .text "Missing URL query parameter."⟩, false) ∧
    handleResult (.ok d) = ⟨200, .json d⟩ ∧
    handleResult (.err .badParam) = ⟨400, .text "Bad URL query parameter."⟩ ∧
    handleResult (.err .failedFetch) = ⟨422, .text "Failed to fetch URL."⟩ ∧
    (p ≠ "" →
      handleUnfurlRequest r (some p) o =
        (handleResult (unfurl r (.str p) o).1, true)) := by
  refine ⟨rfl, rfl, rfl, rfl, fun hp => ?_⟩
  simp [handleUnfurlRequest, hp]

/-- Witness for C10 at a concrete present parameter. -/
theorem handler_status_mapping_witness :
    handleUnfurlRequest resolveRelativeURL (some "x") .throws =
      (handleResult (unfurl resolveRelativeURL (.str "x") .throws).1, true) :=
  (handler_status_mapping resolveRelativeURL .throws "x"
      ⟨none, none, none, none⟩).2.2.2.2 (by decide)
